import Mathlib

/-!
Shallow embedding of the OIDC authentication client of
`src/packages/hawtio/src/plugins/auth/oidc/oidc-service.ts` (class `OidcService`).

The embedding models the pure control flow of the service.  Browser and
library effects (the `auth/config` fetch, `oauth4webapi` calls, `jwtDecode`,
`localStorage`, the URL bar) are inputs of explicit environment records:
each environment field is the outcome the corresponding external call would
deliver in one concrete run.  JavaScript `null`/`undefined` string values
are `Option String`; JavaScript truthiness of a string is `jsTruthyStr`
(empty string, `null` and `undefined` are falsy).  Machine integers do not
occur; JWT `exp` values are `Int` seconds since epoch.
-/

/-- JavaScript truthiness of a nullable string: `null`/`undefined` and the
empty string are falsy, every other string is truthy. -/
def jsTruthyStr : Option String → Bool
  | some s => s != ""
  | none => false

/-- Lookup of a query/fragment parameter, as `URLSearchParams.get`: first
value bound to the key, or `none`. -/
def getParam (ps : List (String × String)) (k : String) : Option String :=
  (ps.find? (fun p => p.1 == k)).map (fun p => p.2)

/-- Setting of a query parameter, as `URLSearchParams.set`: replace the value
in place when the key is already bound, otherwise append the pair. -/
def setParam (ps : List (String × String)) (k v : String) : List (String × String) :=
  if ps.any (fun p => p.1 == k) then
    ps.map (fun p => if p.1 == k then (k, v) else p)
  else
    ps ++ [(k, v)]

/-- The provider metadata (`oauth4webapi.AuthorizationServer`) in the fields
the service reads: the issuer-in-response capability flag and the
authorization endpoint, whose URL is kept as its pre-existing query
parameters (the service adds its own on top via `searchParams.set`). -/
structure AuthServer where
  authorization_response_iss_parameter_supported : Bool
  authorization_endpoint : String
  authorization_endpoint_params : List (String × String)
deriving DecidableEq

/-- The static configuration document `OidcConfig` of the source.  `method`
is `'oidc' | null` and `provider` is checked against `null`, so both are
`Option String`. -/
structure OidcConfig where
  method : Option String
  provider : Option String
  client_id : String
  response_mode : String
  scope : String
  redirect_uri : String
  code_challenge_method : Option String
  prompt : Option String
  openid_configuration : Option AuthServer
deriving DecidableEq

/-- The session credentials held by the service (class `UserInfo` of the
source): `user`, `access_token`, `refresh_token` are nullable, `at_exp`
is the access-token expiry in seconds since epoch (default 0). -/
structure UserInfo where
  user : Option String
  access_token : Option String
  refresh_token : Option String
  at_exp : Int
deriving DecidableEq

/-- The pending login state persisted in `localStorage` under key
`hawtio-oidc-login` before the redirect: state `st`, code verifier `cv`,
nonce `n`, original href `h`.  Fields of a parsed JSON object may be
missing, hence `Option`. -/
structure LoginData where
  st : Option String
  cv : Option String
  n : Option String
  h : Option String
deriving DecidableEq

/-- The decoded JWT payload in the one field the service reads: the optional
`exp` claim. -/
structure JwtPayload where
  exp : Option Int
deriving DecidableEq

/-- The validated ID-token claims in the fields the service reads:
`preferred_username` (optional) and `sub`. -/
structure IdTokenClaims where
  preferred_username : Option String
  sub : String
deriving DecidableEq

/-- A token-endpoint response in the fields the service reads: the access
token and the (possibly absent) refresh token. -/
structure TokenResponse where
  access_token : String
  refresh_token : Option String
deriving DecidableEq

/-- Outcome of `oidc.validateAuthResponse`: success, a thrown
`AuthorizationResponseError`, or a thrown error of any other kind (which the
source's `catch` block swallows without returning). -/
inductive ValidationOutcome where
  | ok : ValidationOutcome
  | errARE : ValidationOutcome
  | errOther : ValidationOutcome
deriving DecidableEq

/-- Enablement predicate `OidcService.isOidcEnabled`:
`cfg?.method === 'oidc' && cfg?.provider != null`. -/
def isOidcEnabled (cfg : Option OidcConfig) : Bool :=
  match cfg with
  | none => false
  | some c => (c.method == some "oidc") && c.provider.isSome

/-- Resolution of the configuration in the `OidcService` constructor: the
`auth/config` fetch either fails (`fetched = none`, the `error` handler
returns `null`) or succeeds with a body that `JSON.parse` either parses to
an `OidcConfig` or throws on (the `success` handler returns `null`). -/
def resolveConfig (fetched : Option String) (parse : String → Option OidcConfig) :
    Option OidcConfig :=
  match fetched with
  | none => none
  | some s => parse s

/-- Expiry test `OidcService.isTokenExpiring`: the source computes
`now = Math.floor(Date.now() / 1000)` and returns `true` iff
`at_exp - 5 < now`.  The current time is made an explicit argument. -/
def isTokenExpiring (now at_exp : Int) : Bool :=
  at_exp - 5 < now

/-- C1: the claim states that `isTokenExpiring` returns true exactly when
`at_exp - 5 <= now`.  The source tests `at_exp - 5 < now` (strict), so at
`now = 100`, `at_exp = 105` the claimed predicate holds while the function
returns false. -/
theorem C1_counterexample :
    isTokenExpiring 100 105 = false ∧ ((105 : Int) - 5 ≤ 100) := by
  constructor
  · rfl
  · decide

/-- C1 (amended): `isTokenExpiring at_exp` returns true exactly when
`at_exp - 5 < now` (strictly less); in particular it returns true for
`at_exp = now + 4` and false for `at_exp = now + 6`, and also false at the
boundary `at_exp = now + 5`. -/
theorem C1_token_expiry_boundary (now at_exp : Int) :
    (isTokenExpiring now at_exp = true ↔ at_exp - 5 < now)
    ∧ isTokenExpiring now (now + 4) = true
    ∧ isTokenExpiring now (now + 5) = false
    ∧ isTokenExpiring now (now + 6) = false := by
  refine ⟨?_, ?_, ?_, ?_⟩ <;> simp [isTokenExpiring] <;> omega

/-- Outcome of `JSON.parse` on the persisted login string: JSON `null`
(on which the subsequent `loginData.cv` property access throws a
`TypeError`), or any other JSON value, carried as the `LoginData` fields a
property access would read (absent on non-objects, hence falsy). A throwing
`JSON.parse` is the `none` of `Option ParsedLogin`. -/
inductive ParsedLogin where
  | jnull : ParsedLogin
  | obj : LoginData → ParsedLogin
deriving DecidableEq

/-- Environment of one run of `OidcService.initialize`: the resolved
configuration and metadata promises, the browser location (query and
fragment parameter lists, `none` when the corresponding string is empty),
the secure-context flag, the random values the run would generate, and the
outcomes the external `oauth4webapi` / `jwtDecode` / `localStorage` calls
would deliver.  `storedLogin` is the raw string
`localStorage.getItem('hawtio-oidc-login')` returns (`none` for a `null`
item) and `parseLogin` is what `JSON.parse` would do with it (`none` for a
thrown parse error). -/
structure InitEnv where
  config : Option OidcConfig
  metadata : Option AuthServer
  search : Option (List (String × String))
  hash : Option (List (String × String))
  isSecureContext : Bool
  code_verifier : String
  code_challenge : String
  state : String
  nonce : String
  validation : ValidationOutcome
  storedLogin : Option String
  parseLogin : String → Option ParsedLogin
  grantReq : Option Unit → Option Unit
  procResult : Option TokenResponse
  idClaims : Option IdTokenClaims
  jwtDecode : String → Option JwtPayload

/-- Result of the bootstrap: a resolved absent session (`null`), the
never-settling full-page redirect carrying the authorization URL's query
parameters, a resolved session, or a thrown exception — the unguarded
`JSON.parse(loginDataString)` / `loginData.cv` access of lines 260-261
rejects the bootstrap promise. -/
inductive InitOutcome where
  | noSession : InitOutcome
  | redirect : List (String × String) → InitOutcome
  | session : UserInfo → InitOutcome
  | thrown : InitOutcome
deriving DecidableEq

/-- Bootstrap result together with an execution trace: whether the
token-endpoint exchange (`authorizationCodeGrantRequest`) was issued, and
with which `code_verifier` argument. -/
structure InitResult where
  outcome : InitOutcome
  exchangeAttempted : Bool
  exchangeVerifier : Option String
deriving DecidableEq

/-- Shorthand for the resolved-`null` bootstrap result with no exchange
attempted. -/
def noSessionResult : InitResult :=
  ⟨InitOutcome.noSession, false, none⟩

/-- Shorthand for the rejected-bootstrap result (an exception escaped
`initialize` before any exchange was attempted). -/
def thrownResult : InitResult :=
  ⟨InitOutcome.thrown, false, none⟩

/-- Authorization-response parameters of `initialize`: the query parameters
in `query` mode, the fragment parameters in `fragment` mode. -/
def initUrlParams (cfg : OidcConfig) (env : InitEnv) : Option (List (String × String)) :=
  if cfg.response_mode == "fragment" then env.hash
  else if cfg.response_mode == "query" then env.search
  else none

/-- Required success parameters (`goodParamsRequired`): `code` and `state`,
plus `iss` when the provider advertises issuer-in-response support. -/
def goodParams (srv : AuthServer) : List String :=
  ["code", "state"] ++ (if srv.authorization_response_iss_parameter_supported then ["iss"] else [])

/-- The `oauthSuccess` flag of `initialize`: parameters are present and every
required success parameter is bound. -/
def oauthSuccessOf (srv : AuthServer) (urlParams : Option (List (String × String))) : Bool :=
  match urlParams with
  | none => false
  | some ps => (goodParams srv).all (fun p => (getParam ps p).isSome)

/-- The `oauthError` flag of `initialize`: parameters are present and bind
the required error parameter `error`. -/
def oauthErrorOf (urlParams : Option (List (String × String))) : Bool :=
  match urlParams with
  | none => false
  | some ps => (getParam ps "error").isSome

/-- Construction of the authorization URL's query parameters
(lines 198-223 of the source): successive `searchParams.set` calls on the
endpoint URL for `response_type`, `response_mode`, `client_id`,
`redirect_uri`, `scope`, the PKCE pair when a challenge method is
configured, `state` and `nonce`; the `prompt` option is deliberately never
set. -/
def buildAuthParams (initial : List (String × String)) (cfg : OidcConfig)
    (code_challenge st nonce : String) : List (String × String) :=
  let ps := setParam initial "response_type" "code"
  let ps := setParam ps "response_mode" cfg.response_mode
  let ps := setParam ps "client_id" cfg.client_id
  let ps := setParam ps "redirect_uri" cfg.redirect_uri
  let ps := setParam ps "scope" cfg.scope
  let ps :=
    match cfg.code_challenge_method with
    | some m => setParam (setParam ps "code_challenge_method" m) "code_challenge" code_challenge
    | none => ps
  let ps := setParam ps "state" st
  setParam ps "nonce" nonce

/-- Exchange phase of `initialize` (lines 236-329 of the source): validate
the authorization response (an `AuthorizationResponseError` returns `null`;
any other thrown error is swallowed, leaving `authResponse` undefined),
read the persisted login string (a falsy string returns `null`), run the
unguarded `JSON.parse` on it (a parse error, or the `loginData.cv` access
on a parsed JSON `null`, throws — the bootstrap promise rejects), require
truthy `cv` and `st`, issue the authorization-code grant request with the
persisted verifier, process the token response, decode the access token
inside a `try`/`catch` (failure tolerated, `at_exp` stays 0; a falsy `exp`
claim also yields 0), require ID token claims, and resolve the session
with `user = claims.preferred_username ?? claims.sub`. -/
def bootstrapExchange (env : InitEnv) : InitResult :=
  let authResponseOpt : Option (Option Unit) :=
    match env.validation with
    | ValidationOutcome.ok => some (some ())
    | ValidationOutcome.errARE => none
    | ValidationOutcome.errOther => some none
  match authResponseOpt with
  | none => noSessionResult
  | some authResponse =>
    match env.storedLogin with
    | none => noSessionResult
    | some s =>
      if s == "" then noSessionResult
      else
        match env.parseLogin s with
        | none => thrownResult
        | some ParsedLogin.jnull => thrownResult
        | some (ParsedLogin.obj ld) =>
          if !(jsTruthyStr ld.cv) || !(jsTruthyStr ld.st) then noSessionResult
          else
            match env.grantReq authResponse with
            | none => ⟨InitOutcome.noSession, true, ld.cv⟩
            | some _ =>
              match env.procResult with
              | none => ⟨InitOutcome.noSession, true, ld.cv⟩
              | some tr =>
                let at_exp : Int :=
                  match env.jwtDecode tr.access_token with
                  | some p =>
                    match p.exp with
                    | some e => if e == 0 then 0 else e
                    | none => 0
                  | none => 0
                match env.idClaims with
                | none => ⟨InitOutcome.noSession, true, ld.cv⟩
                | some cl =>
                  let user :=
                    match cl.preferred_username with
                    | some pu => pu
                    | none => cl.sub
                  ⟨InitOutcome.session ⟨some user, some tr.access_token, tr.refresh_token, at_exp⟩,
                    true, ld.cv⟩

/-- Enabled phase of `initialize` (lines 126-329 of the source): pick the
response parameters per `response_mode`, handle the error-parameter case,
otherwise either start the login (requiring a secure context, then
redirecting to the authorization URL — a branch that never resolves
in-process) or run the exchange phase. -/
def bootstrapEnabled (env : InitEnv) (cfg : OidcConfig) (srv : AuthServer) : InitResult :=
  let urlParams := initUrlParams cfg env
  if oauthErrorOf urlParams then noSessionResult
  else if !(oauthSuccessOf srv urlParams) then
    if !env.isSecureContext then noSessionResult
    else
      ⟨InitOutcome.redirect
          (buildAuthParams srv.authorization_endpoint_params cfg env.code_challenge env.state
            env.nonce),
        false, none⟩
  else bootstrapExchange env

/-- The session bootstrap `OidcService.initialize`: resolves `null` when the
configuration, the enablement check or the metadata is missing, otherwise
runs the enabled phase. -/
def bootstrapSession (env : InitEnv) : InitResult :=
  match env.config, env.metadata with
  | some cfg, some srv =>
    if isOidcEnabled (some cfg) then bootstrapEnabled env cfg srv
    else noSessionResult
  | _, _ => noSessionResult

/-- Environment of one run of `OidcService.updateToken`: the current
`this.userInfo`, the resolved configuration and metadata, whether the caller
supplied the optional `failure` callback, and the outcomes the external
`refreshTokenGrantRequest`, `processRefreshTokenResponse` and `jwtDecode`
calls would deliver. -/
structure UpdateEnv where
  userInfo : Option UserInfo
  config : Option OidcConfig
  metadata : Option AuthServer
  failureProvided : Bool
  refreshGrantResult : Option Unit
  procResult : Option TokenResponse
  jwtDecode : String → Option JwtPayload

/-- Callback outcome of `updateToken`: returned without invoking any
callback, invoked `success` with the given credentials, invoked `failure`,
or threw an exception before invoking either callback. -/
inductive UpdateOutcome where
  | noop : UpdateOutcome
  | succeeded : UserInfo → UpdateOutcome
  | failed : UpdateOutcome
  | thrown : UpdateOutcome
deriving DecidableEq

/-- Result of `updateToken` with an execution trace: the callback outcome,
whether the token endpoint was contacted (`refreshTokenGrantRequest`
issued), and the credentials object `this.userInfo` refers to afterwards
(the source mutates the object in place, so partial mutations before a
thrown exception remain visible). -/
structure UpdateResult where
  outcome : UpdateOutcome
  tokenEndpointCalled : Bool
  userInfo : Option UserInfo
deriving DecidableEq

/-- The token refresh `OidcService.updateToken` (lines 372-427 of the
source).  No stored credentials, a missing configuration/metadata or a
disabled state return silently.  A falsy `refresh_token` only logs
`No refresh token available` and returns.  A rejected
`refreshTokenGrantRequest` invokes `failure` (when provided) in its `catch`
handler and returns.  A rejected `processRefreshTokenResponse` only logs
and returns.  On success the stored object is mutated field by field:
`access_token` and `refresh_token` first, then `jwtDecode` runs with no
`try`/`catch` — when it throws, the routine exits with the first two fields
already overwritten and neither callback invoked; otherwise `at_exp` is set
(falsy `exp` claim gives 0) and `success` is invoked. -/
def updateToken (env : UpdateEnv) : UpdateResult :=
  match env.userInfo with
  | none => ⟨UpdateOutcome.noop, false, none⟩
  | some u =>
    if jsTruthyStr u.refresh_token then
      match env.config, env.metadata with
      | some cfg, some _ =>
        if isOidcEnabled (some cfg) then
          match env.refreshGrantResult with
          | none =>
            ⟨if env.failureProvided then UpdateOutcome.failed else UpdateOutcome.noop,
              true, some u⟩
          | some _ =>
            match env.procResult with
            | none => ⟨UpdateOutcome.noop, true, some u⟩
            | some r =>
              let u1 : UserInfo :=
                { u with access_token := some r.access_token, refresh_token := r.refresh_token }
              match env.jwtDecode r.access_token with
              | none => ⟨UpdateOutcome.thrown, true, some u1⟩
              | some p =>
                let u2 : UserInfo :=
                  { u1 with
                    at_exp :=
                      match p.exp with
                      | some e => if e == 0 then 0 else e
                      | none => 0 }
                ⟨UpdateOutcome.succeeded u2, true, some u2⟩
        else ⟨UpdateOutcome.noop, false, some u⟩
      | _, _ => ⟨UpdateOutcome.noop, false, some u⟩
    else ⟨UpdateOutcome.noop, false, some u⟩

/-- Whether the promise created by the fetch interceptor around an
`updateToken` call settles: `setupFetch` resolves it in the `success`
callback and rejects it in the `failure` callback, so any other outcome
leaves it pending forever. -/
def interceptedRequestSettles (r : UpdateResult) : Bool :=
  match r.outcome with
  | UpdateOutcome.succeeded _ => true
  | UpdateOutcome.failed => true
  | _ => false

/-- Concrete enabled configuration used by the witnesses (the end-to-end
scenario of the spec). -/
def cfgQuery : OidcConfig :=
  { method := some "oidc", provider := some "https://idp.example", client_id := "abc",
    response_mode := "query", scope := "openid profile",
    redirect_uri := "https://app.example/cb", code_challenge_method := some "S256",
    prompt := none, openid_configuration := none }

/-- Concrete provider metadata used by the witnesses: no issuer-in-response
support, bare authorization endpoint. -/
def srvPlain : AuthServer :=
  { authorization_response_iss_parameter_supported := false,
    authorization_endpoint := "https://idp.example/authorize",
    authorization_endpoint_params := [] }

/-- Concrete stored session credentials used by the witnesses. -/
def userAlice : UserInfo :=
  { user := some "alice", access_token := some "T1", refresh_token := some "R1", at_exp := 1000 }

/-- Helper: with stored credentials whose `refresh_token` is falsy,
`updateToken` takes the `else` branch (log only) and changes nothing. -/
theorem updateToken_falsyRefresh (env : UpdateEnv) (u : UserInfo)
    (hu : env.userInfo = some u) (hr : jsTruthyStr u.refresh_token = false) :
    updateToken env = ⟨UpdateOutcome.noop, false, some u⟩ := by
  simp [updateToken, hu, hr]

/-- Concrete stored credentials with no refresh token. -/
def userNoRT : UserInfo :=
  { user := some "alice", access_token := some "T1", refresh_token := none, at_exp := 1000 }

/-- Concrete refresh environment whose credentials hold no refresh token. -/
def envNoRefresh : UpdateEnv :=
  { userInfo := some userNoRT,
    config := some cfgQuery, metadata := some srvPlain, failureProvided := true,
    refreshGrantResult := some (), procResult := some { access_token := "T2", refresh_token := some "R2" },
    jwtDecode := fun _ => some { exp := some 2000 } }

/-- C2: the claim states that with no refresh token the failure callback is
invoked.  In the source the `else` branch only logs
`No refresh token available` and returns, so at a concrete environment with
stored credentials but `refresh_token` absent (and a failure callback
provided) the outcome is not the failure callback. -/
theorem C2_counterexample :
    (updateToken envNoRefresh).outcome ≠ UpdateOutcome.failed
    ∧ (updateToken envNoRefresh).tokenEndpointCalled = false := by
  decide

/-- C2 (amended): for every invocation of `updateToken` in which the current
session credentials hold no refresh token, the token endpoint is never
contacted and neither the success nor the failure callback is invoked (the
routine only logs an error and returns). -/
theorem C2_no_refresh_token_noop (env : UpdateEnv) (u : UserInfo)
    (hu : env.userInfo = some u) (hr : u.refresh_token = none) :
    (updateToken env).tokenEndpointCalled = false
    ∧ (updateToken env).outcome = UpdateOutcome.noop := by
  have h := updateToken_falsyRefresh env u hu (by simp [jsTruthyStr, hr])
  simp [h]

/-- C2 witness: the amended statement at the concrete environment
`envNoRefresh`. -/
theorem C2_no_refresh_token_noop_witness :
    (updateToken envNoRefresh).tokenEndpointCalled = false
    ∧ (updateToken envNoRefresh).outcome = UpdateOutcome.noop :=
  C2_no_refresh_token_noop envNoRefresh userNoRT rfl rfl

/-- Concrete refresh environment in which the token-endpoint transport
succeeds but processing the refresh response fails. -/
def envProcFail : UpdateEnv :=
  { userInfo := some userAlice, config := some cfgQuery, metadata := some srvPlain,
    failureProvided := true, refreshGrantResult := some (), procResult := none,
    jwtDecode := fun _ => some { exp := some 2000 } }

/-- C3: the claim states that every failing refresh attempt invokes the
failure callback.  When `processRefreshTokenResponse` fails, the source's
`catch` handler only logs and the routine returns, so at a concrete
environment with a processing failure (failure callback provided) the
failure callback is not invoked, though the credentials stay unchanged. -/
theorem C3_counterexample :
    (updateToken envProcFail).outcome ≠ UpdateOutcome.failed
    ∧ (updateToken envProcFail).outcome = UpdateOutcome.noop
    ∧ (updateToken envProcFail).userInfo = some userAlice := by
  decide

/-- C3 (amended): on a transport failure of the refresh-token grant request
`updateToken` invokes the failure callback; on a failure to process the
refresh response it invokes no callback at all (it only logs); in both
cases the previous `SessionCredentials` (access_token, refresh_token,
at_exp) are left completely unchanged. -/
theorem C3_refresh_failure_paths (env : UpdateEnv) (u : UserInfo) (cfg : OidcConfig)
    (srv : AuthServer) (hu : env.userInfo = some u) (hr : jsTruthyStr u.refresh_token = true)
    (hc : env.config = some cfg) (hm : env.metadata = some srv)
    (he : isOidcEnabled (some cfg) = true) (hf : env.failureProvided = true) :
    (env.refreshGrantResult = none →
      (updateToken env).outcome = UpdateOutcome.failed ∧ (updateToken env).userInfo = some u)
    ∧ (env.refreshGrantResult = some () → env.procResult = none →
      (updateToken env).outcome = UpdateOutcome.noop ∧ (updateToken env).userInfo = some u) := by
  constructor
  · intro hg
    simp [updateToken, hu, hr, hc, hm, he, hf, hg]
  · intro hg hp
    simp [updateToken, hu, hr, hc, hm, he, hg, hp]

/-- C3 witness: the amended statement at the concrete environment
`envProcFail` (whose grant request succeeds and whose processing fails). -/
theorem C3_refresh_failure_paths_witness :
    (envProcFail.refreshGrantResult = none →
      (updateToken envProcFail).outcome = UpdateOutcome.failed
      ∧ (updateToken envProcFail).userInfo = some userAlice)
    ∧ (envProcFail.refreshGrantResult = some () → envProcFail.procResult = none →
      (updateToken envProcFail).outcome = UpdateOutcome.noop
      ∧ (updateToken envProcFail).userInfo = some userAlice) :=
  C3_refresh_failure_paths envProcFail userAlice cfgQuery srvPlain rfl rfl rfl rfl rfl rfl

/-- The in-place mutation of the stored credentials performed by the success
path of `updateToken`: `access_token` and `refresh_token` overwritten from
the refresh response, `at_exp` recomputed from the decoded payload (falsy
`exp` gives 0). -/
def refreshedUser (u : UserInfo) (r : TokenResponse) (p : JwtPayload) : UserInfo :=
  { u with
    access_token := some r.access_token
    refresh_token := r.refresh_token
    at_exp :=
      match p.exp with
      | some e => if e == 0 then 0 else e
      | none => 0 }

/-- C9: after every successful refresh the stored `refresh_token` is
unconditionally overwritten with the refresh response's `refresh_token`
field; and when the response omits it, the stored refresh token becomes
undefined, so a later `updateToken` on the resulting credentials contacts
no token endpoint and invokes no callback (the no-refresh-token path). -/
theorem C9_refresh_token_overwritten (env env2 : UpdateEnv) (u : UserInfo) (cfg : OidcConfig)
    (srv : AuthServer) (r : TokenResponse) (p : JwtPayload)
    (hu : env.userInfo = some u) (hr : jsTruthyStr u.refresh_token = true)
    (hc : env.config = some cfg) (hm : env.metadata = some srv)
    (he : isOidcEnabled (some cfg) = true)
    (hg : env.refreshGrantResult = some ()) (hpr : env.procResult = some r)
    (hd : env.jwtDecode r.access_token = some p)
    (h2 : env2.userInfo = (updateToken env).userInfo) :
    (∃ u2, (updateToken env).outcome = UpdateOutcome.succeeded u2
      ∧ (updateToken env).userInfo = some u2 ∧ u2.refresh_token = r.refresh_token)
    ∧ (r.refresh_token = none →
      (updateToken env2).tokenEndpointCalled = false
      ∧ (updateToken env2).outcome = UpdateOutcome.noop) := by
  have hres : updateToken env =
      ⟨UpdateOutcome.succeeded (refreshedUser u r p), true, some (refreshedUser u r p)⟩ := by
    simp [updateToken, refreshedUser, hu, hr, hc, hm, he, hg, hpr, hd]
  constructor
  · refine ⟨refreshedUser u r p, by rw [hres], by rw [hres], ?_⟩
    simp [refreshedUser]
  · intro hnone
    have h2' : env2.userInfo = some (refreshedUser u r p) := by
      rw [h2, hres]
    have hfalsy : jsTruthyStr (refreshedUser u r p).refresh_token = false := by
      simp [refreshedUser, hnone, jsTruthyStr]
    have := updateToken_falsyRefresh env2 _ h2' hfalsy
    simp [this]

/-- Concrete refresh environment whose refresh response omits the
`refresh_token` field. -/
def envOmitRT : UpdateEnv :=
  { userInfo := some userAlice, config := some cfgQuery, metadata := some srvPlain,
    failureProvided := true, refreshGrantResult := some (),
    procResult := some { access_token := "T2", refresh_token := none },
    jwtDecode := fun _ => some { exp := some 2000 } }

/-- Concrete follow-up refresh environment holding the credentials left by a
successful refresh of `envOmitRT`. -/
def envOmitRTNext : UpdateEnv :=
  { envOmitRT with userInfo := (updateToken envOmitRT).userInfo }

/-- C9 witness: the statement at the concrete environments `envOmitRT` and
`envOmitRTNext`. -/
theorem C9_refresh_token_overwritten_witness :
    (∃ u2, (updateToken envOmitRT).outcome = UpdateOutcome.succeeded u2
      ∧ (updateToken envOmitRT).userInfo = some u2 ∧ u2.refresh_token = none)
    ∧ ((none : Option String) = none →
      (updateToken envOmitRTNext).tokenEndpointCalled = false
      ∧ (updateToken envOmitRTNext).outcome = UpdateOutcome.noop) :=
  C9_refresh_token_overwritten envOmitRT envOmitRTNext userAlice cfgQuery srvPlain
    { access_token := "T2", refresh_token := none } { exp := some 2000 }
    rfl rfl rfl rfl rfl rfl rfl rfl rfl

/-- Concrete refresh environment whose refresh response carries an access
token that is not a decodable JWT (`jwtDecode` throws on every input). -/
def envBadJwt : UpdateEnv :=
  { userInfo := some userAlice, config := some cfgQuery, metadata := some srvPlain,
    failureProvided := true, refreshGrantResult := some (),
    procResult := some { access_token := "not-a-jwt", refresh_token := some "R2" },
    jwtDecode := fun _ => none }

/-- Concrete bootstrap environment whose token response carries the same
undecodable access token, exercising the guarded decode of the initial
exchange. -/
def envBadJwtInit : InitEnv :=
  { config := some cfgQuery, metadata := some srvPlain,
    search := some [("code", "C"), ("state", "S1")], hash := none,
    isSecureContext := true, code_verifier := "CV", code_challenge := "CC",
    state := "ST", nonce := "N", validation := ValidationOutcome.ok,
    storedLogin := some "stored",
    parseLogin := fun _ =>
      some (ParsedLogin.obj { st := some "S1", cv := some "CV", n := some "N", h := some "/" }),
    grantReq := fun a => a,
    procResult := some { access_token := "not-a-jwt", refresh_token := some "R1" },
    idClaims := some { preferred_username := some "alice", sub := "u1" },
    jwtDecode := fun _ => none }

/-- C10: in the refresh success path the access token is decoded with no
exception guard: at a concrete refresh response whose `access_token` is not
a decodable JWT, `updateToken` throws before invoking either callback, so
the intercepted request's promise never settles — while the guarded decode
of the initial exchange tolerates the same undecodable token and still
resolves a session (with `at_exp = 0`). -/
theorem C10_unguarded_refresh_decode :
    (updateToken envBadJwt).outcome = UpdateOutcome.thrown
    ∧ interceptedRequestSettles (updateToken envBadJwt) = false
    ∧ (bootstrapSession envBadJwtInit).outcome =
        InitOutcome.session ⟨some "alice", some "not-a-jwt", some "R1", 0⟩ := by
  refine ⟨by decide, by decide, by decide⟩

/-- Helper: with a present configuration and metadata and the enablement
check passing, the bootstrap runs its enabled phase. -/
theorem bootstrapSession_enabled (env : InitEnv) (cfg : OidcConfig) (srv : AuthServer)
    (hc : env.config = some cfg) (hm : env.metadata = some srv)
    (he : isOidcEnabled (some cfg) = true) :
    bootstrapSession env = bootstrapEnabled env cfg srv := by
  simp [bootstrapSession, hc, hm, he]

/-- Helper: with success parameters present and no error parameter, the
enabled phase runs the exchange phase. -/
theorem bootstrapEnabled_success (env : InitEnv) (cfg : OidcConfig) (srv : AuthServer)
    (hsucc : oauthSuccessOf srv (initUrlParams cfg env) = true)
    (herr : oauthErrorOf (initUrlParams cfg env) = false) :
    bootstrapEnabled env cfg srv = bootstrapExchange env := by
  simp [bootstrapEnabled, hsucc, herr]

/-- Helper: with a falsy persisted login string (`null` item or empty
string) the exchange phase resolves absent without attempting the
exchange, whatever the validation outcome. -/
theorem bootstrapExchange_falsyStoredLogin (env : InitEnv)
    (hld : jsTruthyStr env.storedLogin = false) :
    bootstrapExchange env = noSessionResult := by
  cases hs : env.storedLogin with
  | none => cases hv : env.validation <;> simp [bootstrapExchange, hv, hs]
  | some s =>
    rw [hs] at hld
    have hempty : s = "" := by simpa [jsTruthyStr] using hld
    subst hempty
    cases hv : env.validation <;> simp [bootstrapExchange, hv, hs]

/-- Helper: with a persisted login string parsing to an object whose code
verifier or state is falsy, the exchange phase resolves absent without
attempting the exchange. -/
theorem bootstrapExchange_badLoginData (env : InitEnv) (s : String) (ld : LoginData)
    (hs : env.storedLogin = some s)
    (hpl : env.parseLogin s = some (ParsedLogin.obj ld))
    (hbad : jsTruthyStr ld.cv = false ∨ jsTruthyStr ld.st = false) :
    bootstrapExchange env = noSessionResult := by
  cases hv : env.validation <;>
    rcases hbad with hbad | hbad <;>
      by_cases hse : (s == "") = true <;>
        simp [bootstrapExchange, hv, hs, hse, hpl, hbad]

/-- C4: on an authorization response carrying success parameters, a missing
persisted `PendingLoginState`, or one whose code-verifier or state field is
missing (falsy), means the token-exchange request is never issued and the
bootstrap resolves to an absent session; with a present pending state
(verifier and state truthy, response validation succeeding) the exchange is
invoked with exactly the persisted code verifier. -/
theorem C4_pending_login_state (env : InitEnv) (cfg : OidcConfig) (srv : AuthServer)
    (hc : env.config = some cfg) (hm : env.metadata = some srv)
    (he : isOidcEnabled (some cfg) = true)
    (hsucc : oauthSuccessOf srv (initUrlParams cfg env) = true)
    (herr : oauthErrorOf (initUrlParams cfg env) = false) :
    (jsTruthyStr env.storedLogin = false →
      (bootstrapSession env).outcome = InitOutcome.noSession
      ∧ (bootstrapSession env).exchangeAttempted = false)
    ∧ (∀ s ld, env.storedLogin = some s →
        env.parseLogin s = some (ParsedLogin.obj ld) →
        (jsTruthyStr ld.cv = false ∨ jsTruthyStr ld.st = false) →
      (bootstrapSession env).outcome = InitOutcome.noSession
      ∧ (bootstrapSession env).exchangeAttempted = false)
    ∧ (∀ s ld, env.storedLogin = some s → jsTruthyStr (some s) = true →
        env.parseLogin s = some (ParsedLogin.obj ld) →
        jsTruthyStr ld.cv = true → jsTruthyStr ld.st = true →
        env.validation = ValidationOutcome.ok →
      (bootstrapSession env).exchangeAttempted = true
      ∧ (bootstrapSession env).exchangeVerifier = ld.cv) := by
  have hred : bootstrapSession env = bootstrapExchange env := by
    rw [bootstrapSession_enabled env cfg srv hc hm he,
      bootstrapEnabled_success env cfg srv hsucc herr]
  refine ⟨?_, ?_, ?_⟩
  · intro hld
    rw [hred, bootstrapExchange_falsyStoredLogin env hld]
    exact ⟨rfl, rfl⟩
  · intro s ld hs hpl hbad
    rw [hred, bootstrapExchange_badLoginData env s ld hs hpl hbad]
    exact ⟨rfl, rfl⟩
  · intro s ld hs htruthy hpl hcv hst hval
    rw [hred]
    have hse : (s == "") = false := by
      simp [jsTruthyStr] at htruthy
      exact beq_eq_false_iff_ne.mpr htruthy
    simp only [bootstrapExchange, hval, hs, hse, hpl, hcv, hst]
    cases hg : env.grantReq (some ()) with
    | none => simp [hg]
    | some g =>
      cases hp : env.procResult with
      | none => simp [hg, hp]
      | some tr =>
        cases hi : env.idClaims with
        | none => simp [hg, hp, hi]
        | some cl => simp [hg, hp, hi]

/-- Concrete bootstrap environment: enabled query-mode configuration, a
success authorization response, matching persisted login data, and
successful external calls. -/
def envInitBase : InitEnv :=
  { config := some cfgQuery, metadata := some srvPlain,
    search := some [("code", "C"), ("state", "S1")], hash := none,
    isSecureContext := true, code_verifier := "CV", code_challenge := "CC",
    state := "ST", nonce := "N", validation := ValidationOutcome.ok,
    storedLogin := some "stored",
    parseLogin := fun _ =>
      some (ParsedLogin.obj { st := some "S1", cv := some "CV", n := some "N", h := some "/" }),
    grantReq := fun a => a,
    procResult := some { access_token := "AT", refresh_token := some "RT" },
    idClaims := some { preferred_username := some "alice", sub := "u1" },
    jwtDecode := fun _ => some { exp := some 2000 } }

/-- C4 witness: the statement at the concrete environment `envInitBase`,
whose pending login state persists the code verifier `CV`. -/
theorem C4_pending_login_state_witness :
    (jsTruthyStr envInitBase.storedLogin = false →
      (bootstrapSession envInitBase).outcome = InitOutcome.noSession
      ∧ (bootstrapSession envInitBase).exchangeAttempted = false)
    ∧ (∀ s ld, envInitBase.storedLogin = some s →
        envInitBase.parseLogin s = some (ParsedLogin.obj ld) →
        (jsTruthyStr ld.cv = false ∨ jsTruthyStr ld.st = false) →
      (bootstrapSession envInitBase).outcome = InitOutcome.noSession
      ∧ (bootstrapSession envInitBase).exchangeAttempted = false)
    ∧ (∀ s ld, envInitBase.storedLogin = some s → jsTruthyStr (some s) = true →
        envInitBase.parseLogin s = some (ParsedLogin.obj ld) →
        jsTruthyStr ld.cv = true → jsTruthyStr ld.st = true →
        envInitBase.validation = ValidationOutcome.ok →
      (bootstrapSession envInitBase).exchangeAttempted = true
      ∧ (bootstrapSession envInitBase).exchangeVerifier = ld.cv) :=
  C4_pending_login_state envInitBase cfgQuery srvPlain rfl rfl rfl rfl rfl

/-- Concrete bootstrap environment whose response validation throws an error
that is not an `AuthorizationResponseError` while the persisted login
string is present but not valid JSON, so the unguarded
`JSON.parse(loginDataString)` at line 260 throws. -/
def envStoreBroken : InitEnv :=
  { envInitBase with
    validation := ValidationOutcome.errOther,
    storedLogin := some "not json",
    parseLogin := fun _ => none }

/-- C5: the claim states that every failing validation resolves the session
absent and the bootstrap promise never rejects.  A failure that is not an
`AuthorizationResponseError` is swallowed by the `catch` at lines 246-251
and the flow continues into the persisted-login handling, whose
`JSON.parse` at line 260 is unguarded: at a concrete environment with such
a validation failure and a present-but-unparsable persisted login string
the bootstrap throws — the promise rejects instead of resolving absent. -/
theorem C5_counterexample :
    (bootstrapSession envStoreBroken).outcome = InitOutcome.thrown
    ∧ (bootstrapSession envStoreBroken).outcome ≠ InitOutcome.noSession
    ∧ envStoreBroken.validation ≠ ValidationOutcome.ok := by
  refine ⟨by decide, by decide, by decide⟩

/-- C5 (amended): when validation of the authorization response fails, a
thrown `AuthorizationResponseError` resolves the session absent; a thrown
error of any other kind is swallowed and the bootstrap continues into the
persisted-login handling, where it still resolves absent when the
persisted login string is falsy or parses to a JSON object (granted the
grant-request library call rejects when handed the undefined validated
response), but where a present, truthy login string that is unparsable —
or parses to JSON `null` — makes the unguarded `JSON.parse` /
`loginData.cv` access throw, rejecting the bootstrap promise. -/
theorem C5_validation_failure_absent (env : InitEnv) (cfg : OidcConfig) (srv : AuthServer)
    (hc : env.config = some cfg) (hm : env.metadata = some srv)
    (he : isOidcEnabled (some cfg) = true)
    (hsucc : oauthSuccessOf srv (initUrlParams cfg env) = true)
    (herr : oauthErrorOf (initUrlParams cfg env) = false)
    (hv : env.validation ≠ ValidationOutcome.ok)
    (hgr : env.grantReq none = none) :
    (env.validation = ValidationOutcome.errARE →
      (bootstrapSession env).outcome = InitOutcome.noSession)
    ∧ (jsTruthyStr env.storedLogin = false →
      (bootstrapSession env).outcome = InitOutcome.noSession)
    ∧ (∀ s ld, env.storedLogin = some s →
        env.parseLogin s = some (ParsedLogin.obj ld) →
      (bootstrapSession env).outcome = InitOutcome.noSession)
    ∧ (∀ s, env.validation = ValidationOutcome.errOther →
        env.storedLogin = some s → jsTruthyStr (some s) = true →
        (env.parseLogin s = none ∨ env.parseLogin s = some ParsedLogin.jnull) →
      (bootstrapSession env).outcome = InitOutcome.thrown) := by
  have hred : bootstrapSession env = bootstrapExchange env := by
    rw [bootstrapSession_enabled env cfg srv hc hm he,
      bootstrapEnabled_success env cfg srv hsucc herr]
  refine ⟨?_, ?_, ?_, ?_⟩
  · intro hval
    rw [hred]
    simp [bootstrapExchange, hval, noSessionResult]
  · intro hfalsy
    rw [hred, bootstrapExchange_falsyStoredLogin env hfalsy]
    rfl
  · intro s ld hs hpl
    rw [hred]
    by_cases hcv : jsTruthyStr ld.cv = true
    · by_cases hst : jsTruthyStr ld.st = true
      · cases hval : env.validation with
        | ok => exact absurd hval hv
        | errARE => simp [bootstrapExchange, hval, noSessionResult]
        | errOther =>
          by_cases hse : (s == "") = true
          · simp [bootstrapExchange, hval, hs, hse, noSessionResult]
          · have hse' : (s == "") = false := by simpa using hse
            simp [bootstrapExchange, hval, hs, hse', hpl, hcv, hst, hgr]
      · have hst' : jsTruthyStr ld.st = false := by simpa using hst
        rw [bootstrapExchange_badLoginData env s ld hs hpl (Or.inr hst')]
        rfl
    · have hcv' : jsTruthyStr ld.cv = false := by simpa using hcv
      rw [bootstrapExchange_badLoginData env s ld hs hpl (Or.inl hcv')]
      rfl
  · intro s hval hs htruthy hbadparse
    rw [hred]
    have hse : (s == "") = false := by
      simp [jsTruthyStr] at htruthy
      exact beq_eq_false_iff_ne.mpr htruthy
    rcases hbadparse with hb | hb <;>
      simp [bootstrapExchange, hval, hs, hse, hb, thrownResult]

/-- Concrete bootstrap environment whose response validation throws an error
that is not an `AuthorizationResponseError`, over a well-formed persisted
login state. -/
def envValFail : InitEnv :=
  { envInitBase with validation := ValidationOutcome.errOther }

/-- C5 witness: the amended statement at the concrete environment
`envValFail`. -/
theorem C5_validation_failure_absent_witness :
    (envValFail.validation = ValidationOutcome.errARE →
      (bootstrapSession envValFail).outcome = InitOutcome.noSession)
    ∧ (jsTruthyStr envValFail.storedLogin = false →
      (bootstrapSession envValFail).outcome = InitOutcome.noSession)
    ∧ (∀ s ld, envValFail.storedLogin = some s →
        envValFail.parseLogin s = some (ParsedLogin.obj ld) →
      (bootstrapSession envValFail).outcome = InitOutcome.noSession)
    ∧ (∀ s, envValFail.validation = ValidationOutcome.errOther →
        envValFail.storedLogin = some s → jsTruthyStr (some s) = true →
        (envValFail.parseLogin s = none ∨ envValFail.parseLogin s = some ParsedLogin.jnull) →
      (bootstrapSession envValFail).outcome = InitOutcome.thrown) :=
  C5_validation_failure_absent envValFail cfgQuery srvPlain rfl rfl rfl rfl rfl
    (by decide) rfl

/-- C6: when the redirect-back URL carries an `error` parameter in the
configured response mode, the bootstrap resolves the session as absent and
the token-exchange request is never issued. -/
theorem C6_error_param_absent (env : InitEnv) (cfg : OidcConfig) (srv : AuthServer)
    (ps : List (String × String))
    (hc : env.config = some cfg) (hm : env.metadata = some srv)
    (he : isOidcEnabled (some cfg) = true)
    (hp : initUrlParams cfg env = some ps)
    (herr : (getParam ps "error").isSome = true) :
    (bootstrapSession env).outcome = InitOutcome.noSession
    ∧ (bootstrapSession env).exchangeAttempted = false := by
  rw [bootstrapSession_enabled env cfg srv hc hm he]
  simp [bootstrapEnabled, hp, oauthErrorOf, herr, noSessionResult]

/-- Concrete bootstrap environment whose query string carries
`error=access_denied&error_description=denied`. -/
def envErrParam : InitEnv :=
  { envInitBase with
    search := some [("error", "access_denied"), ("error_description", "denied")] }

/-- C6 witness: the statement at the concrete environment `envErrParam`. -/
theorem C6_error_param_absent_witness :
    (bootstrapSession envErrParam).outcome = InitOutcome.noSession
    ∧ (bootstrapSession envErrParam).exchangeAttempted = false :=
  C6_error_param_absent envErrParam cfgQuery srvPlain
    [("error", "access_denied"), ("error_description", "denied")] rfl rfl rfl rfl rfl

/-- C7: for an enabled configuration in `query` response mode with no
authorization-response parameters in the URL (and the secure context the
redirect branch requires, over a bare authorization endpoint), the
authorization redirect URL's query parameters are exactly
`response_type=code`, `response_mode`, `client_id`, `redirect_uri`,
`scope`, then `code_challenge_method` and `code_challenge` exactly when a
PKCE challenge method is configured, then `state` and `nonce` — and nothing
else (in particular no `prompt`). -/
theorem C7_authorization_url_params (env : InitEnv) (cfg : OidcConfig) (srv : AuthServer)
    (hc : env.config = some cfg) (hm : env.metadata = some srv)
    (he : isOidcEnabled (some cfg) = true)
    (hmode : cfg.response_mode = "query")
    (hsearch : env.search = none)
    (hsec : env.isSecureContext = true)
    (hinit : srv.authorization_endpoint_params = []) :
    (bootstrapSession env).outcome = InitOutcome.redirect
      (("response_type", "code") :: ("response_mode", cfg.response_mode) ::
        ("client_id", cfg.client_id) :: ("redirect_uri", cfg.redirect_uri) ::
        ("scope", cfg.scope) ::
        (match cfg.code_challenge_method with
          | some m =>
            [("code_challenge_method", m), ("code_challenge", env.code_challenge),
              ("state", env.state), ("nonce", env.nonce)]
          | none => [("state", env.state), ("nonce", env.nonce)])) := by
  rw [bootstrapSession_enabled env cfg srv hc hm he]
  have hup : initUrlParams cfg env = none := by
    simp [initUrlParams, hmode, hsearch]
  simp only [bootstrapEnabled, hup, oauthErrorOf, oauthSuccessOf, Bool.not_false, if_true,
    Bool.false_eq_true, if_false, hsec, hinit]
  cases hccm : cfg.code_challenge_method with
  | none => simp [buildAuthParams, setParam, hccm]
  | some m => simp [buildAuthParams, setParam, hccm]

/-- Concrete bootstrap environment with no authorization-response
parameters in the URL (a first visit). -/
def envFreshLogin : InitEnv :=
  { envInitBase with search := none }

/-- C7 witness: the statement at the concrete environment `envFreshLogin`,
whose configuration sets PKCE method `S256`. -/
theorem C7_authorization_url_params_witness :
    (bootstrapSession envFreshLogin).outcome = InitOutcome.redirect
      (("response_type", "code") :: ("response_mode", cfgQuery.response_mode) ::
        ("client_id", cfgQuery.client_id) :: ("redirect_uri", cfgQuery.redirect_uri) ::
        ("scope", cfgQuery.scope) ::
        (match cfgQuery.code_challenge_method with
          | some m =>
            [("code_challenge_method", m), ("code_challenge", envFreshLogin.code_challenge),
              ("state", envFreshLogin.state), ("nonce", envFreshLogin.nonce)]
          | none => [("state", envFreshLogin.state), ("nonce", envFreshLogin.nonce)])) :=
  C7_authorization_url_params envFreshLogin cfgQuery srvPlain rfl rfl rfl rfl rfl rfl rfl

/-- C8: OIDC is enabled exactly when the configuration document resolves to
a parsed document whose `method` is `oidc` and whose provider URL is
non-null; a failed fetch or an unparsable body resolves to `null`
configuration and hence disabled (the resolution is a total function — it
never rejects). -/
theorem C8_enablement (fetched : Option String) (parse : String → Option OidcConfig) :
    (isOidcEnabled (resolveConfig fetched parse) = true ↔
      ∃ c, resolveConfig fetched parse = some c
        ∧ c.method = some "oidc" ∧ c.provider ≠ none)
    ∧ (fetched = none → resolveConfig fetched parse = none
        ∧ isOidcEnabled (resolveConfig fetched parse) = false)
    ∧ (∀ s, fetched = some s → parse s = none → resolveConfig fetched parse = none
        ∧ isOidcEnabled (resolveConfig fetched parse) = false) := by
  refine ⟨?_, ?_, ?_⟩
  · cases hres : resolveConfig fetched parse with
    | none => simp [isOidcEnabled]
    | some c =>
      simp only [isOidcEnabled, Bool.and_eq_true, beq_iff_eq, Option.isSome_iff_ne_none]
      constructor
      · rintro ⟨h1, h2⟩
        exact ⟨c, rfl, h1, h2⟩
      · rintro ⟨c2, hc2, h1, h2⟩
        cases hc2
        exact ⟨h1, h2⟩
  · intro hf
    subst hf
    exact ⟨rfl, rfl⟩
  · intro s hf hp
    subst hf
    simp [resolveConfig, hp, isOidcEnabled]

/-- C8 witness: the statement at a failed fetch, an unparsable body, and a
parsed enabled document. -/
theorem C8_enablement_witness :
    isOidcEnabled (resolveConfig none (fun _ => some cfgQuery)) = false
    ∧ isOidcEnabled (resolveConfig (some "bad") (fun _ => none)) = false
    ∧ isOidcEnabled (resolveConfig (some "ok") (fun _ => some cfgQuery)) = true :=
  ⟨((C8_enablement none (fun _ => some cfgQuery)).2.1 rfl).2,
    ((C8_enablement (some "bad") (fun _ => none)).2.2 "bad" rfl rfl).2,
    (C8_enablement (some "ok") (fun _ => some cfgQuery)).1.mpr
      ⟨cfgQuery, rfl, rfl, by decide⟩⟩
